import Mathlib

/-!
Verification of the Vortek frame-pipeline and swapchain-lifecycle manager
against its specification.

The Rust source under src/graphics/rendering* is shallowly embedded:

* Pure negotiation helpers of `SwapchainState` (`select_present_mode`,
  `select_format`, `determine_extent`, `compute_image_count`) become pure
  Lean functions over explicit models of `SurfaceCapabilities`, `Format`
  and the window size.
* The stateful renderer (`RendererState`, `FramebufferState`) becomes a
  state structure in which every GPU object (swapchain, render pass,
  framebuffer, image view, fence, semaphore, command pool, command buffer)
  is represented by a `Nat` identity drawn from a monotone allocation
  counter, so that questions of object identity and reuse are expressible.
* `draw_clear_frame` becomes a function from a renderer state and a
  per-frame environment (the driver-determined outcomes: acquired image
  index or failure, fence wait and reset outcomes, present outcome, and
  the freshly negotiated extent and image count used if a recreation
  happens) to a result, a successor state, and a trace of events.
* The `Drop` implementations become teardown-event traces derived from the
  code of `Drop for RendererState`, `Drop for SwapchainState`,
  `Drop for RenderPassState` and `Drop for FramebufferState`, together with
  the field declaration order of `RendererState` (Rust drops remaining
  fields in declaration order after the explicit `drop` body runs).

Floating-point data (the clear color channels and the viewport depth
range 0.0..1.0) is carried opaquely by the code and never inspected by
any property below, so it is omitted from the model.
-/

set_option maxRecDepth 8000

namespace Vortek

/-- Channel type of a surface format (`gfx_hal::format::ChannelType`);
only the sRGB discrimination is relevant to the code. -/
inductive ChannelType
  | Unorm
  | Snorm
  | Uscaled
  | Sscaled
  | Uint
  | Sint
  | Ufloat
  | Sfloat
  | Srgb
  deriving DecidableEq

/-- A surface format (`gfx_hal::format::Format`): a base surface type tag
paired with its channel type, as exposed by `Format::base_format()`. -/
structure Format where
  surfaceType : Nat
  channelType : ChannelType
  deriving DecidableEq

/-- The `Format::Rgba8Srgb` variant: 8-bit-per-channel RGBA with sRGB
channels.  The surface-type tag 0 is an arbitrary model identifier for
the `R8_G8_B8_A8` base surface type. -/
def Format.Rgba8Srgb : Format :=
  { surfaceType := 0, channelType := ChannelType.Srgb }

/-- The error type (`VortekError`); the claims only exercise the
rendering family, which wraps a message string. -/
inductive VortekError
  | RenderingError (message : String)
  deriving DecidableEq

/-- `VortekResult<T> = Result<T, VortekError>`. -/
abbrev VortekResult (α : Type) := Except VortekError α

instance {ε α : Type} [DecidableEq ε] [DecidableEq α] :
    DecidableEq (Except ε α)
  | Except.ok x, Except.ok y => decidable_of_iff (x = y) (by simp)
  | Except.ok _, Except.error _ => isFalse (fun h => by simp at h)
  | Except.error _, Except.ok _ => isFalse (fun h => by simp at h)
  | Except.error x, Except.error y => decidable_of_iff (x = y) (by simp)

/-- Present modes considered by the code
(`gfx_hal::window::PresentMode`). -/
inductive PresentMode
  | Mailbox
  | Fifo
  | Relaxed
  | Immediate
  deriving DecidableEq

/-- The set of present modes supported by a surface
(`PresentMode` is a bitflags set in gfx-hal; one flag per mode). -/
structure PresentModeSet where
  mailbox : Bool
  fifo : Bool
  relaxed : Bool
  immediate : Bool
  deriving DecidableEq

/-- Bitflags membership test (`present_modes.contains(mode)`). -/
def PresentModeSet.contains (s : PresentModeSet) : PresentMode → Bool
  | PresentMode.Mailbox => s.mailbox
  | PresentMode.Fifo => s.fifo
  | PresentMode.Relaxed => s.relaxed
  | PresentMode.Immediate => s.immediate

/-- A two-dimensional extent (`gfx_hal::window::Extent2D`), width and
height in pixels. -/
structure Extent2D where
  width : Nat
  height : Nat
  deriving DecidableEq

/-- The surface capability report (`gfx_hal::window::SurfaceCapabilities`)
restricted to the fields the embedded functions read: the inclusive
image-count range, the optional fixed current extent, the inclusive extent
range, and the supported present modes.  (The composite-alpha set and the
usage flags feed `select_composite_alpha_mode` and `select_image_usage`,
which no claim concerns, and are omitted.) -/
structure SurfaceCapabilities where
  image_count_start : Nat
  image_count_end : Nat
  current_extent : Option Extent2D
  extents_start : Extent2D
  extents_end : Extent2D
  present_modes : PresentModeSet
  deriving DecidableEq

/-- Modelled from the spec: the window collaborator.  `determine_extent`
calls `window_state.inner_physical_size()`, a query for the window's
current physical pixel size (the method is referenced from
`swapchain.rs` but not present in `src/graphics/window.rs`); the spec
calls it "the caller-supplied window pixel size".  It is modelled as an
opaque pair of pixel dimensions. -/
structure WindowState where
  inner_physical_width : Nat
  inner_physical_height : Nat
  deriving DecidableEq

namespace SwapchainState

/-- `SwapchainState::select_present_mode`: the first mode of the fixed
priority list `[MAILBOX, FIFO, RELAXED, IMMEDIATE]` contained in the
surface capabilities, or an error when none is. -/
def select_present_mode (capabilities : SurfaceCapabilities) :
    VortekResult PresentMode :=
  match [PresentMode.Mailbox, PresentMode.Fifo, PresentMode.Relaxed,
      PresentMode.Immediate].find?
      (fun present_mode => capabilities.present_modes.contains present_mode) with
  | some present_mode => Except.ok present_mode
  | none =>
    Except.error (VortekError.RenderingError "No present modes specified.")

/-- `SwapchainState::select_format`: with no reported format list, default
to `Rgba8Srgb`; otherwise the first format whose channel type is sRGB,
else the first list entry, else (empty list) an error. -/
def select_format (supported_formats : Option (List Format)) :
    VortekResult Format :=
  match supported_formats with
  | none => Except.ok Format.Rgba8Srgb
  | some formats =>
    match formats.find?
        (fun format => format.channelType == ChannelType.Srgb) with
    | some srgb_format => Except.ok srgb_format
    | none =>
      match formats.get? 0 with
      | some format => Except.ok format
      | none =>
        Except.error
          (VortekError.RenderingError "Supported format list was empty.")

/-- `SwapchainState::determine_extent`: the surface's current extent when
reported, otherwise the window pixel size clamped component-wise into the
inclusive range `[extents.start(), extents.end()]` of the capabilities.
The code always returns `Ok`. -/
def determine_extent (window_state : WindowState)
    (capabilities : SurfaceCapabilities) : VortekResult Extent2D :=
  let window_width := window_state.inner_physical_width
  let window_height := window_state.inner_physical_height
  Except.ok (capabilities.current_extent.getD
    (let min_width := capabilities.extents_start.width
     let max_width := capabilities.extents_end.width
     let min_height := capabilities.extents_start.height
     let max_height := capabilities.extents_end.height
     { width := min max_width (max window_width min_width),
       height := min max_height (max window_height min_height) }))

/-- `SwapchainState::compute_image_count`: the preferred count (3 for
Mailbox, else 2) clamped into the inclusive supported range. -/
def compute_image_count (capabilities : SurfaceCapabilities)
    (present_mode : PresentMode) : Nat :=
  min capabilities.image_count_end
    (max capabilities.image_count_start
      (if present_mode = PresentMode.Mailbox then 3 else 2))

end SwapchainState

/-- The sRGB test applied by `select_format`
(`format.base_format().1 == ChannelType::Srgb`). -/
def isSrgb (format : Format) : Bool :=
  format.channelType == ChannelType.Srgb

/-! ## The stateful renderer

GPU objects are modelled by `Nat` identities drawn from a monotone
allocation counter, so that replacement versus reuse of an object is
expressible as (in)equality of identities. -/

/-- Model of `FramebufferState` (framebuffer.rs): the per-image resource
pool.  Each device object is a `Nat` identity.  `command_buffer_lists`
stores each reusable `Vec<CommandBuffer>` with the most recently pushed
buffer at the head, so that `Vec::pop` (which removes the last pushed
element) is head removal and `Vec::push` is head insertion.  The
`device_state` handle carries no observable data and is omitted. -/
structure FramebufferState where
  framebuffers : List Nat
  frame_image_views : List Nat
  command_pools : List Nat
  command_buffer_lists : List (List Nat)
  in_flight_fences : List Nat
  acquire_semaphores : List Nat
  present_semaphores : List Nat
  number_of_frames : Nat
  next_semaphore_index : Nat
  deriving DecidableEq

/-- Number of device objects `FramebufferState::new` creates for
`number_of_frames` swap images: one image view, framebuffer, fence,
acquire semaphore, present semaphore and command pool per image. -/
def FramebufferState.allocCount (number_of_frames : Nat) : Nat :=
  6 * number_of_frames

/-- Model of `FramebufferState::new`: fresh image views, framebuffers,
pre-signaled fences, acquire semaphores, present semaphores and command
pools (in the creation order of the code), one per swap image, with empty
reusable command-buffer lists and the round-robin slot counter at 0.
Identities are allocated consecutively from `alloc`. -/
def FramebufferState.new (alloc : Nat) (number_of_frames : Nat) :
    FramebufferState :=
  { frame_image_views := List.range' alloc number_of_frames,
    framebuffers := List.range' (alloc + number_of_frames) number_of_frames,
    in_flight_fences :=
      List.range' (alloc + 2 * number_of_frames) number_of_frames,
    acquire_semaphores :=
      List.range' (alloc + 3 * number_of_frames) number_of_frames,
    present_semaphores :=
      List.range' (alloc + 4 * number_of_frames) number_of_frames,
    command_pools :=
      List.range' (alloc + 5 * number_of_frames) number_of_frames,
    command_buffer_lists := List.replicate number_of_frames [],
    number_of_frames := number_of_frames,
    next_semaphore_index := 0 }

/-- `FramebufferState::advance_semaphore_index`: return the current slot,
then store `(current + 1) % number_of_frames`. -/
def FramebufferState.advance_semaphore_index (s : FramebufferState) :
    Nat × FramebufferState :=
  let current_semaphore_index := s.next_semaphore_index
  (current_semaphore_index,
    { s with next_semaphore_index :=
        (s.next_semaphore_index + 1) % s.number_of_frames })

/-- The viewport rectangle (`gfx_hal::pso::Rect`); coordinates are `i16`
in the code. -/
structure Rect where
  x : Int
  y : Int
  w : Int
  h : Int
  deriving DecidableEq

/-- Wrapping conversion of a `u32` pixel dimension to `i16`
(`extent.width as i16` in `create_viewport`). -/
def i16_of_nat (value : Nat) : Int :=
  let r := value % 65536
  if r < 32768 then (r : Int) else (r : Int) - 65536

/-- The viewport; the constant float depth range 0.0..1.0 is omitted. -/
structure Viewport where
  rect : Rect
  deriving DecidableEq

/-- `RendererState::create_viewport`: a full-extent rectangle at the
origin. -/
def create_viewport (extent : Extent2D) : Viewport :=
  { rect := { x := 0, y := 0, w := i16_of_nat extent.width,
              h := i16_of_nat extent.height } }

/-- Model of `RendererState` (rendering.rs).  `swapchain` and
`render_pass` are the identities of the currently live swapchain and
render pass objects; `alloc_counter` is the source of fresh identities.
The `backend_state` and `device_state` handles carry no data the claims
observe and are omitted. -/
structure RendererState where
  swapchain : Nat
  swapchain_extent : Extent2D
  render_pass : Nat
  framebuffer_state : FramebufferState
  viewport : Viewport
  recreate_swapchain : Bool
  alloc_counter : Nat
  deriving DecidableEq

/-- Model of `RendererState::new`: build swapchain (identity 0), render
pass (identity 1), framebuffer state and viewport, in that order, with
the recreation flag clear. -/
def RendererState.new (extent : Extent2D) (number_of_frames : Nat) :
    RendererState :=
  { swapchain := 0,
    swapchain_extent := extent,
    render_pass := 1,
    framebuffer_state := FramebufferState.new 2 number_of_frames,
    viewport := create_viewport extent,
    recreate_swapchain := false,
    alloc_counter := 2 + FramebufferState.allocCount number_of_frames }

/-- Model of the private method `RendererState::recreate_swapchain`
(named apart from the equally named field): wait for device idle, drop
the old swapchain, then build a fresh swapchain, render pass,
framebuffer state and viewport, in that order, against the newly
negotiated extent and image count.  Every constructed object gets a
fresh identity; the recreation flag itself is untouched here (the caller
clears it). -/
def RendererState.do_recreate_swapchain (s : RendererState)
    (new_extent : Extent2D) (new_number_of_frames : Nat) : RendererState :=
  { swapchain := s.alloc_counter,
    swapchain_extent := new_extent,
    render_pass := s.alloc_counter + 1,
    framebuffer_state :=
      FramebufferState.new (s.alloc_counter + 2) new_number_of_frames,
    viewport := create_viewport new_extent,
    recreate_swapchain := s.recreate_swapchain,
    alloc_counter :=
      s.alloc_counter + 2 + FramebufferState.allocCount new_number_of_frames }

/-- The driver-determined outcomes of one `draw_clear_frame` call: whether
the device-idle wait and resource construction of a pending recreation
succeed (`recreate_ok`; construction failures are fatal and propagate),
the extent and image count a recreation would negotiate, the acquired
image index (`none` models `acquire_image` failure), the fence wait and
reset outcomes, and the present outcome. -/
structure FrameEnv where
  recreate_ok : Bool
  recreate_extent : Extent2D
  recreate_image_count : Nat
  acquire_result : Option Nat
  fence_wait_ok : Bool
  fence_reset_ok : Bool
  present_ok : Bool
  deriving DecidableEq

/-- Observable actions of one `draw_clear_frame` call, in program
order. -/
inductive FrameEvent
  | recreateSwapchain
  | advanceSlot (slot : Nat)
  | acquireImage (slot : Nat)
  | fenceWait (image : Nat)
  | fenceReset (image : Nat)
  | poolReset (image : Nat)
  | popBuffer (image : Nat) (buffer : Nat)
  | allocBuffer (image : Nat) (buffer : Nat)
  | recordBuffer (buffer : Nat)
  | submit (image : Nat) (buffer : Nat) (slot : Nat)
  | pushBuffer (image : Nat) (buffer : Nat)
  | present (image : Nat) (slot : Nat)
  deriving DecidableEq

/-- Whether an event touches a per-image resource (fence, command pool,
command buffer) or performs submission or presentation. -/
def FrameEvent.touchesImageResources : FrameEvent → Bool
  | FrameEvent.fenceWait _ => true
  | FrameEvent.fenceReset _ => true
  | FrameEvent.poolReset _ => true
  | FrameEvent.popBuffer _ _ => true
  | FrameEvent.allocBuffer _ _ => true
  | FrameEvent.recordBuffer _ => true
  | FrameEvent.submit _ _ _ => true
  | FrameEvent.pushBuffer _ _ => true
  | FrameEvent.present _ _ => true
  | _ => false

/-- Result of one `draw_clear_frame` call: the returned value, the
successor renderer state, and the event trace. -/
structure FrameResult where
  result : VortekResult Unit
  state : RendererState
  trace : List FrameEvent
  deriving DecidableEq

/-- The part of `draw_clear_frame` after a successful image acquisition
(rendering.rs lines 132–209): wait on and reset the acquired image's
fence (failures propagate as errors), reset its command pool, pop a
command buffer from its reusable list or allocate a fresh one, record,
submit, push the buffer back, then present; a present failure sets the
recreation flag and still returns `Ok`. -/
def RendererState.draw_after_acquire (s : RendererState) (env : FrameEnv)
    (semaphore_index swap_image_index : Nat) : FrameResult :=
  if !env.fence_wait_ok then
    { result := Except.error (VortekError.RenderingError
        "Could not wait for in-flight fence: "),
      state := s,
      trace := [FrameEvent.fenceWait swap_image_index] }
  else if !env.fence_reset_ok then
    { result := Except.error (VortekError.RenderingError
        "Could not reset in-flight fence: "),
      state := s,
      trace := [FrameEvent.fenceWait swap_image_index,
                FrameEvent.fenceReset swap_image_index] }
  else
    let head := [FrameEvent.fenceWait swap_image_index,
                 FrameEvent.fenceReset swap_image_index,
                 FrameEvent.poolReset swap_image_index]
    let finish := fun (s₃ : RendererState) (command_buffer : Nat)
        (popEvent : FrameEvent) =>
      let s₄ := { s₃ with framebuffer_state :=
        { s₃.framebuffer_state with command_buffer_lists :=
            (s₃.framebuffer_state.command_buffer_lists.set swap_image_index
              (command_buffer ::
                s₃.framebuffer_state.command_buffer_lists.getD
                  swap_image_index [])) } }
      { result := Except.ok (),
        state :=
          if env.present_ok then s₄
          else { s₄ with recreate_swapchain := true },
        trace := head ++ [popEvent,
          FrameEvent.recordBuffer command_buffer,
          FrameEvent.submit swap_image_index command_buffer semaphore_index,
          FrameEvent.pushBuffer swap_image_index command_buffer,
          FrameEvent.present swap_image_index semaphore_index] }
    match s.framebuffer_state.command_buffer_lists.getD swap_image_index [] with
    | [] =>
      finish { s with alloc_counter := s.alloc_counter + 1 } s.alloc_counter
        (FrameEvent.allocBuffer swap_image_index s.alloc_counter)
    | command_buffer :: rest =>
      finish { s with framebuffer_state :=
          { s.framebuffer_state with command_buffer_lists :=
              (s.framebuffer_state.command_buffer_lists.set swap_image_index
                rest) } }
        command_buffer (FrameEvent.popBuffer swap_image_index command_buffer)

/-- Step 1 of `draw_clear_frame`: consume a pending recreation flag by
rebuilding everything and clearing the flag; otherwise leave the state
untouched. -/
def RendererState.recreated_if_needed (s₀ : RendererState) (env : FrameEnv) :
    RendererState :=
  if s₀.recreate_swapchain then
    { s₀.do_recreate_swapchain env.recreate_extent
        env.recreate_image_count with recreate_swapchain := false }
  else s₀

/-- Model of `RendererState::draw_clear_frame`: consume a pending
recreation flag first (idle-wait/construction failure propagates with
the flag still set), advance the round-robin semaphore slot, attempt the
acquire with that slot's acquire semaphore — on failure set the
recreation flag and return `Ok` — and otherwise continue with
`draw_after_acquire`.  The clear color is carried opaquely by the code
and does not influence control flow or state, so it is not a
parameter. -/
def RendererState.draw_clear_frame (s₀ : RendererState) (env : FrameEnv) :
    FrameResult :=
  if s₀.recreate_swapchain && !env.recreate_ok then
    { result := Except.error (VortekError.RenderingError
        "Could not wait for device to become idle: "),
      state := s₀, trace := [] }
  else
    let s₁ := s₀.recreated_if_needed env
    let trace₁ : List FrameEvent :=
      if s₀.recreate_swapchain then [FrameEvent.recreateSwapchain] else []
    let advanced := s₁.framebuffer_state.advance_semaphore_index
    let semaphore_index := advanced.1
    let s₂ := { s₁ with framebuffer_state := advanced.2 }
    let pre := trace₁ ++ [FrameEvent.advanceSlot semaphore_index,
                          FrameEvent.acquireImage semaphore_index]
    match env.acquire_result with
    | none =>
      { result := Except.ok (),
        state := { s₂ with recreate_swapchain := true },
        trace := pre }
    | some swap_image_index =>
      let rest := s₂.draw_after_acquire env semaphore_index swap_image_index
      { result := rest.result, state := rest.state,
        trace := pre ++ rest.trace }

/-- The renderer state as it stands when `draw_clear_frame` attempts the
image acquisition: any pending recreation has been consumed and the
round-robin slot has been advanced. -/
def RendererState.pre_state (s₀ : RendererState) (env : FrameEnv) :
    RendererState :=
  { s₀.recreated_if_needed env with
    framebuffer_state :=
      ((s₀.recreated_if_needed env).framebuffer_state.advance_semaphore_index).2 }

/-- Run a sequence of `draw_clear_frame` calls, keeping the final
state. -/
def RendererState.runFrames (s : RendererState) :
    List FrameEnv → RendererState
  | [] => s
  | env :: rest => ((s.draw_clear_frame env).state).runFrames rest

/-! ## Teardown -/

/-- Observable actions of the `Drop` implementations. -/
inductive TeardownEvent
  | deviceIdleWait
  | fenceWait (fence : Nat)
  | destroyFence (fence : Nat)
  | freeCommandBuffers (pool : Nat)
  | destroyCommandPool (pool : Nat)
  | destroySemaphore (semaphore : Nat)
  | destroyFramebuffer (framebuffer : Nat)
  | destroyImageView (view : Nat)
  | destroyRenderPass (render_pass : Nat)
  | destroySwapchain (swapchain : Nat)
  deriving DecidableEq

/-- Whether a teardown event is a fence wait. -/
def TeardownEvent.isFenceWait : TeardownEvent → Bool
  | TeardownEvent.fenceWait _ => true
  | _ => false

/-- The event trace of `Drop for FramebufferState` (framebuffer.rs lines
359–428): wait on and destroy each in-flight fence, free each command
pool's buffers and destroy the pool, destroy the acquire semaphores,
the present semaphores, the framebuffers, and the image views, in that
order. -/
def FramebufferState.dropTrace (s : FramebufferState) : List TeardownEvent :=
  (s.in_flight_fences.map fun fence =>
      [TeardownEvent.fenceWait fence, TeardownEvent.destroyFence fence]).flatten
  ++ (s.command_pools.map fun pool =>
      [TeardownEvent.freeCommandBuffers pool,
       TeardownEvent.destroyCommandPool pool]).flatten
  ++ s.acquire_semaphores.map TeardownEvent.destroySemaphore
  ++ s.present_semaphores.map TeardownEvent.destroySemaphore
  ++ s.framebuffers.map TeardownEvent.destroyFramebuffer
  ++ s.frame_image_views.map TeardownEvent.destroyImageView

/-- The event trace of dropping `RendererState` (rendering.rs lines
269–273): the explicit `Drop` body takes `swapchain_state` out and drops
it, so `Drop for SwapchainState` destroys the swapchain first; Rust then
drops the remaining fields in declaration order, reaching
`render_pass_state` (whose `Drop` destroys the render pass) and then
`framebuffer_state`.  No device-idle wait occurs anywhere on this
path. -/
def RendererState.dropTrace (s : RendererState) : List TeardownEvent :=
  TeardownEvent.destroySwapchain s.swapchain ::
    TeardownEvent.destroyRenderPass s.render_pass ::
      s.framebuffer_state.dropTrace


/-- Iterated calls to `advance_semaphore_index`, collecting the returned
slot values in call order. -/
def advanceCalls (s : FramebufferState) : Nat → List Nat × FramebufferState
  | 0 => ([], s)
  | k + 1 =>
    let step := s.advance_semaphore_index
    let rest := advanceCalls step.2 k
    (step.1 :: rest.1, rest.2)

/-- The command buffer `draw_clear_frame` uses for the given image index
from the given pre-frame state: the most recently pushed buffer of the
image's reusable list if one exists, else a freshly allocated identity
(the current allocation counter). -/
def RendererState.command_buffer_for (s : RendererState) (idx : Nat) : Nat :=
  match s.framebuffer_state.command_buffer_lists.getD idx [] with
  | [] => s.alloc_counter
  | command_buffer :: _ => command_buffer

/-- A frame environment in which every driver interaction succeeds. -/
abbrev successfulEnv (env : FrameEnv) : Prop :=
  env.recreate_ok = true ∧ env.fence_wait_ok = true ∧
  env.fence_reset_ok = true ∧ env.present_ok = true

/-- A sample renderer: an 800×600 surface with two swap images. -/
def sampleRenderer : RendererState :=
  RendererState.new { width := 800, height := 600 } 2

/-- A sample all-success frame environment acquiring the given image. -/
def envSuccess (image : Nat) : FrameEnv :=
  { recreate_ok := true, recreate_extent := { width := 800, height := 600 },
    recreate_image_count := 2, acquire_result := some image,
    fence_wait_ok := true, fence_reset_ok := true, present_ok := true }

/-- A sample frame environment whose image acquisition fails. -/
def envAcquireFail : FrameEnv :=
  { recreate_ok := true, recreate_extent := { width := 800, height := 600 },
    recreate_image_count := 2, acquire_result := none,
    fence_wait_ok := true, fence_reset_ok := true, present_ok := true }

/-- A sample frame environment whose presentation fails. -/
def envPresentFail : FrameEnv :=
  { recreate_ok := true, recreate_extent := { width := 800, height := 600 },
    recreate_image_count := 2, acquire_result := some 0,
    fence_wait_ok := true, fence_reset_ok := true, present_ok := false }

/-! ## Theorems -/

/-- `List.find?` returns the element after a prefix of non-matches. -/
theorem find?_first_aux {α : Type} (p : α → Bool) :
    ∀ (l₁ l₂ : List α) (x : α), (∀ y ∈ l₁, p y = false) → p x = true →
      (l₁ ++ x :: l₂).find? p = some x := by
  intro l₁
  induction l₁ with
  | nil => intro l₂ x _ hx; simpa using List.find?_cons_of_pos _ hx
  | cons a t ih =>
    intro l₂ x h hx
    rw [List.cons_append,
      List.find?_cons_of_neg _ (by simp [h a (by simp)])]
    exact ih l₂ x (fun y hy => h y (by simp [hy])) hx

/-- Claim C4: `select_format` returns the first sRGB-channel format of a
present list when one exists, the first entry of a present list holding no
sRGB format, the default `Rgba8Srgb` when no list is reported, and an
error exactly when a present list is empty. -/
theorem select_format_spec (formats l₁ l₂ : List Format)
    (srgb_format first_format : Format) :
    SwapchainState.select_format none = Except.ok Format.Rgba8Srgb
    ∧ (formats = l₁ ++ srgb_format :: l₂ → (∀ g ∈ l₁, isSrgb g = false) →
        isSrgb srgb_format = true →
        SwapchainState.select_format (some formats) = Except.ok srgb_format)
    ∧ ((∀ g ∈ formats, isSrgb g = false) → formats.head? = some first_format →
        SwapchainState.select_format (some formats) = Except.ok first_format)
    ∧ ((∃ e, SwapchainState.select_format (some formats) = Except.error e) ↔
        formats = []) := by
  refine ⟨rfl, ?_, ?_, ?_⟩
  · intro heq h₁ hx
    subst heq
    have hfind : (l₁ ++ srgb_format :: l₂).find?
        (fun format => format.channelType == ChannelType.Srgb) =
          some srgb_format :=
      find?_first_aux _ l₁ l₂ srgb_format h₁ hx
    simp [SwapchainState.select_format, hfind]
  · intro hall hhead
    cases formats with
    | nil => simp at hhead
    | cons f t =>
      have hfind : (f :: t).find?
          (fun format => format.channelType == ChannelType.Srgb) = none :=
        List.find?_eq_none.mpr (fun x hx => by
          simpa [isSrgb] using hall x hx)
      have hf : first_format = f := by
        simpa using hhead.symm
      subst hf
      simp [SwapchainState.select_format, hfind]
  · cases formats with
    | nil => simp [SwapchainState.select_format]
    | cons f t =>
      simp only [SwapchainState.select_format]
      rcases hf : (f :: t).find?
          (fun format => format.channelType == ChannelType.Srgb) with _ | g
      · simp [hf]
      · simp [hf]

/-- Witness for C4: a list whose first sRGB entry sits behind one
non-sRGB entry yields exactly that entry. -/
theorem select_format_spec_witness :
    SwapchainState.select_format
        (some [{ surfaceType := 1, channelType := ChannelType.Unorm },
               { surfaceType := 2, channelType := ChannelType.Srgb },
               { surfaceType := 3, channelType := ChannelType.Srgb }]) =
      Except.ok { surfaceType := 2, channelType := ChannelType.Srgb } :=
  (select_format_spec
      [{ surfaceType := 1, channelType := ChannelType.Unorm },
       { surfaceType := 2, channelType := ChannelType.Srgb },
       { surfaceType := 3, channelType := ChannelType.Srgb }]
      [{ surfaceType := 1, channelType := ChannelType.Unorm }]
      [{ surfaceType := 3, channelType := ChannelType.Srgb }]
      { surfaceType := 2, channelType := ChannelType.Srgb }
      { surfaceType := 1, channelType := ChannelType.Unorm }).2.1
    rfl (by decide) (by decide)

/-- Claim C5: `select_present_mode` picks the highest-priority supported
member of Mailbox > Fifo > Relaxed > Immediate, and errs exactly when
none of the four is supported. -/
theorem select_present_mode_spec (capabilities : SurfaceCapabilities) :
    (capabilities.present_modes.mailbox = true →
      SwapchainState.select_present_mode capabilities =
        Except.ok PresentMode.Mailbox)
    ∧ (capabilities.present_modes.mailbox = false →
       capabilities.present_modes.fifo = true →
      SwapchainState.select_present_mode capabilities =
        Except.ok PresentMode.Fifo)
    ∧ (capabilities.present_modes.mailbox = false →
       capabilities.present_modes.fifo = false →
       capabilities.present_modes.relaxed = true →
      SwapchainState.select_present_mode capabilities =
        Except.ok PresentMode.Relaxed)
    ∧ (capabilities.present_modes.mailbox = false →
       capabilities.present_modes.fifo = false →
       capabilities.present_modes.relaxed = false →
       capabilities.present_modes.immediate = true →
      SwapchainState.select_present_mode capabilities =
        Except.ok PresentMode.Immediate)
    ∧ ((∃ e, SwapchainState.select_present_mode capabilities =
          Except.error e) ↔
        (capabilities.present_modes.mailbox = false ∧
         capabilities.present_modes.fifo = false ∧
         capabilities.present_modes.relaxed = false ∧
         capabilities.present_modes.immediate = false)) := by
  obtain ⟨ics, ice, ce, es, ee, m, f, r, im⟩ := capabilities
  cases m <;> cases f <;> cases r <;> cases im <;>
    simp [SwapchainState.select_present_mode, PresentModeSet.contains,
      List.find?]

/-- Witness for C5: with Mailbox unsupported and Fifo supported, Fifo is
selected. -/
theorem select_present_mode_spec_witness :
    SwapchainState.select_present_mode
      { image_count_start := 1, image_count_end := 3, current_extent := none,
        extents_start := { width := 1, height := 1 },
        extents_end := { width := 4096, height := 4096 },
        present_modes := { mailbox := false, fifo := true, relaxed := false,
                           immediate := true } } =
      Except.ok PresentMode.Fifo :=
  (select_present_mode_spec
    { image_count_start := 1, image_count_end := 3, current_extent := none,
      extents_start := { width := 1, height := 1 },
      extents_end := { width := 4096, height := 4096 },
      present_modes := { mailbox := false, fifo := true, relaxed := false,
                         immediate := true } }).2.1 rfl rfl

/-- Claim C6: `determine_extent` returns the reported current extent when
one exists (ignoring the window size), and otherwise clamps the window
pixel size component-wise into the inclusive supported range. -/
theorem determine_extent_spec (window_state : WindowState)
    (capabilities : SurfaceCapabilities) :
    (∀ current, capabilities.current_extent = some current →
      SwapchainState.determine_extent window_state capabilities =
        Except.ok current)
    ∧ (capabilities.current_extent = none →
      SwapchainState.determine_extent window_state capabilities =
        Except.ok
          { width := min capabilities.extents_end.width
              (max window_state.inner_physical_width
                capabilities.extents_start.width),
            height := min capabilities.extents_end.height
              (max window_state.inner_physical_height
                capabilities.extents_start.height) })
    ∧ (capabilities.current_extent = none →
       capabilities.extents_start.width ≤ capabilities.extents_end.width →
       capabilities.extents_start.height ≤ capabilities.extents_end.height →
      ∃ chosen, SwapchainState.determine_extent window_state capabilities =
          Except.ok chosen
        ∧ capabilities.extents_start.width ≤ chosen.width
        ∧ chosen.width ≤ capabilities.extents_end.width
        ∧ capabilities.extents_start.height ≤ chosen.height
        ∧ chosen.height ≤ capabilities.extents_end.height
        ∧ (capabilities.extents_start.width ≤
              window_state.inner_physical_width →
           window_state.inner_physical_width ≤
              capabilities.extents_end.width →
           chosen.width = window_state.inner_physical_width)
        ∧ (capabilities.extents_start.height ≤
              window_state.inner_physical_height →
           window_state.inner_physical_height ≤
              capabilities.extents_end.height →
           chosen.height = window_state.inner_physical_height)) := by
  refine ⟨?_, ?_, ?_⟩
  · intro current hc
    simp [SwapchainState.determine_extent, hc]
  · intro hc
    simp [SwapchainState.determine_extent, hc]
  · intro hc hw hh
    refine ⟨Extent2D.mk
        (min capabilities.extents_end.width
          (max window_state.inner_physical_width
            capabilities.extents_start.width))
        (min capabilities.extents_end.height
          (max window_state.inner_physical_height
            capabilities.extents_start.height)),
      by simp [SwapchainState.determine_extent, hc], ?_, ?_, ?_, ?_, ?_, ?_⟩
    · dsimp only
      omega
    · dsimp only
      omega
    · dsimp only
      omega
    · dsimp only
      omega
    · intro h₁ h₂
      dsimp only
      omega
    · intro h₁ h₂
      dsimp only
      omega

/-- Witness for C6: window 800×600 with no current extent and bounds
[1×1, 4096×4096] yields (800, 600); a reported current extent (640, 480)
is returned unchanged. -/
theorem determine_extent_spec_witness :
    SwapchainState.determine_extent
        { inner_physical_width := 800, inner_physical_height := 600 }
        { image_count_start := 1, image_count_end := 3,
          current_extent := none,
          extents_start := { width := 1, height := 1 },
          extents_end := { width := 4096, height := 4096 },
          present_modes := { mailbox := true, fifo := true, relaxed := false,
                             immediate := false } } =
      Except.ok { width := 800, height := 600 }
    ∧ SwapchainState.determine_extent
        { inner_physical_width := 800, inner_physical_height := 600 }
        { image_count_start := 1, image_count_end := 3,
          current_extent := some { width := 640, height := 480 },
          extents_start := { width := 1, height := 1 },
          extents_end := { width := 4096, height := 4096 },
          present_modes := { mailbox := true, fifo := true, relaxed := false,
                             immediate := false } } =
      Except.ok { width := 640, height := 480 } := by
  constructor
  · exact ((determine_extent_spec
      { inner_physical_width := 800, inner_physical_height := 600 }
      { image_count_start := 1, image_count_end := 3,
        current_extent := none,
        extents_start := { width := 1, height := 1 },
        extents_end := { width := 4096, height := 4096 },
        present_modes := { mailbox := true, fifo := true, relaxed := false,
                           immediate := false } }).2.1 rfl).trans
      (congrArg Except.ok (by decide))
  · exact (determine_extent_spec
      { inner_physical_width := 800, inner_physical_height := 600 }
      { image_count_start := 1, image_count_end := 3,
        current_extent := some { width := 640, height := 480 },
        extents_start := { width := 1, height := 1 },
        extents_end := { width := 4096, height := 4096 },
        present_modes := { mailbox := true, fifo := true, relaxed := false,
                           immediate := false } }).1
      { width := 640, height := 480 } rfl

/-- Claim C7: with `minImageCount ≤ maxImageCount`, `compute_image_count`
equals the preferred count (3 for Mailbox, else 2) clamped into the
inclusive supported range, so it always lies within that range. -/
theorem compute_image_count_spec (capabilities : SurfaceCapabilities)
    (present_mode : PresentMode)
    (h : capabilities.image_count_start ≤ capabilities.image_count_end) :
    capabilities.image_count_start ≤
        SwapchainState.compute_image_count capabilities present_mode
    ∧ SwapchainState.compute_image_count capabilities present_mode ≤
        capabilities.image_count_end
    ∧ (present_mode = PresentMode.Mailbox →
        (capabilities.image_count_start ≤ 3 →
          3 ≤ capabilities.image_count_end →
          SwapchainState.compute_image_count capabilities present_mode = 3)
        ∧ (3 < capabilities.image_count_start →
          SwapchainState.compute_image_count capabilities present_mode =
            capabilities.image_count_start)
        ∧ (capabilities.image_count_end < 3 →
          SwapchainState.compute_image_count capabilities present_mode =
            capabilities.image_count_end))
    ∧ (present_mode ≠ PresentMode.Mailbox →
        (capabilities.image_count_start ≤ 2 →
          2 ≤ capabilities.image_count_end →
          SwapchainState.compute_image_count capabilities present_mode = 2)
        ∧ (2 < capabilities.image_count_start →
          SwapchainState.compute_image_count capabilities present_mode =
            capabilities.image_count_start)
        ∧ (capabilities.image_count_end < 2 →
          SwapchainState.compute_image_count capabilities present_mode =
            capabilities.image_count_end)) := by
  cases present_mode <;>
    simp [SwapchainState.compute_image_count] <;> omega

/-- Witness for C7: with supported range [1, 10], Mailbox yields 3 and
Fifo yields 2, both within the range. -/
theorem compute_image_count_spec_witness :
    SwapchainState.compute_image_count
      { image_count_start := 1, image_count_end := 10,
        current_extent := none,
        extents_start := { width := 1, height := 1 },
        extents_end := { width := 4096, height := 4096 },
        present_modes := { mailbox := true, fifo := true, relaxed := false,
                           immediate := false } } PresentMode.Mailbox = 3
    ∧ SwapchainState.compute_image_count
      { image_count_start := 1, image_count_end := 10,
        current_extent := none,
        extents_start := { width := 1, height := 1 },
        extents_end := { width := 4096, height := 4096 },
        present_modes := { mailbox := true, fifo := true, relaxed := false,
                           immediate := false } } PresentMode.Fifo = 2 :=
  ⟨((compute_image_count_spec
      { image_count_start := 1, image_count_end := 10,
        current_extent := none,
        extents_start := { width := 1, height := 1 },
        extents_end := { width := 4096, height := 4096 },
        present_modes := { mailbox := true, fifo := true, relaxed := false,
                           immediate := false } } PresentMode.Mailbox
      (by decide)).2.2.1 rfl).1 (by decide) (by decide),
   ((compute_image_count_spec
      { image_count_start := 1, image_count_end := 10,
        current_extent := none,
        extents_start := { width := 1, height := 1 },
        extents_end := { width := 4096, height := 4096 },
        present_modes := { mailbox := true, fifo := true, relaxed := false,
                           immediate := false } } PresentMode.Fifo
      (by decide)).2.2.2 (by decide)).1 (by decide) (by decide)⟩

/-- The slots returned by iterated `advance_semaphore_index` calls are
successive residues modulo the frame count. -/
theorem advanceCalls_formula (k : Nat) : ∀ s : FramebufferState,
    0 < s.number_of_frames →
    s.next_semaphore_index < s.number_of_frames →
    (advanceCalls s k).1 = (List.range k).map
      (fun j => (s.next_semaphore_index + j) % s.number_of_frames) := by
  induction k with
  | zero => intro s _ _; rfl
  | succ k ih =>
    intro s hpos hlt
    have hstep := ih (s.advance_semaphore_index).2 hpos (Nat.mod_lt _ hpos)
    simp only [advanceCalls]
    rw [hstep]
    simp only [FramebufferState.advance_semaphore_index,
      List.range_succ_eq_map, List.map_cons, List.map_map]
    congr 1
    · rw [Nat.add_zero, Nat.mod_eq_of_lt hlt]
    · apply List.map_congr_left
      intro j _
      simp only [Function.comp]
      rw [Nat.mod_add_mod]
      congr 1
      omega

/-- Claim C9: `advance_semaphore_index` returns the current slot and
stores its successor modulo the image count, so with a valid starting
slot the returned values cycle through the residues and stay below the
image count. -/
theorem advance_semaphore_index_spec (s : FramebufferState) (k : Nat)
    (hpos : 0 < s.number_of_frames)
    (hlt : s.next_semaphore_index < s.number_of_frames) :
    (s.advance_semaphore_index).1 = s.next_semaphore_index
    ∧ (s.advance_semaphore_index).2.number_of_frames = s.number_of_frames
    ∧ (s.advance_semaphore_index).2.next_semaphore_index =
        (s.next_semaphore_index + 1) % s.number_of_frames
    ∧ (advanceCalls s k).1 = (List.range k).map
        (fun j => (s.next_semaphore_index + j) % s.number_of_frames)
    ∧ ∀ r ∈ (advanceCalls s k).1, r < s.number_of_frames := by
  refine ⟨rfl, rfl, rfl, advanceCalls_formula k s hpos hlt, ?_⟩
  intro r hr
  rw [advanceCalls_formula k s hpos hlt] at hr
  simp only [List.mem_map, List.mem_range] at hr
  obtain ⟨j, _, rfl⟩ := hr
  exact Nat.mod_lt _ hpos

/-- Witness for C9: a three-image pool starting at slot 0 yields the slot
sequence 0, 1, 2, 0, 1, 2, 0 over seven calls. -/
theorem advance_semaphore_index_spec_witness :
    ((FramebufferState.new 2 3).advance_semaphore_index).1 =
        (FramebufferState.new 2 3).next_semaphore_index
    ∧ ((FramebufferState.new 2 3).advance_semaphore_index).2.number_of_frames =
        (FramebufferState.new 2 3).number_of_frames
    ∧ ((FramebufferState.new 2 3).advance_semaphore_index).2.next_semaphore_index =
        ((FramebufferState.new 2 3).next_semaphore_index + 1) %
          (FramebufferState.new 2 3).number_of_frames
    ∧ (advanceCalls (FramebufferState.new 2 3) 7).1 = (List.range 7).map
        (fun j => ((FramebufferState.new 2 3).next_semaphore_index + j) %
          (FramebufferState.new 2 3).number_of_frames)
    ∧ ∀ r ∈ (advanceCalls (FramebufferState.new 2 3) 7).1,
        r < (FramebufferState.new 2 3).number_of_frames :=
  advance_semaphore_index_spec (FramebufferState.new 2 3) 7
    (by decide) (by decide)

/-- Claim C2 is refuted by the code: dropping `RendererState` destroys
the swapchain first (the explicit `Drop` body takes the swapchain state
out), before any in-flight fence is waited on, and performs no
device-idle wait at all; the fence waits only happen later, inside the
`FramebufferState` teardown.  Evaluated at a freshly constructed
renderer with two swap images. -/
theorem renderer_drop_order_violation :
    sampleRenderer.dropTrace.head? =
      some (TeardownEvent.destroySwapchain sampleRenderer.swapchain)
    ∧ TeardownEvent.deviceIdleWait ∉ sampleRenderer.dropTrace
    ∧ (∃ e ∈ sampleRenderer.dropTrace, TeardownEvent.isFenceWait e = true)
    ∧ (∀ e ∈ sampleRenderer.dropTrace, TeardownEvent.isFenceWait e = true →
        sampleRenderer.dropTrace.indexOf
            (TeardownEvent.destroySwapchain sampleRenderer.swapchain) <
          sampleRenderer.dropTrace.indexOf e) := by
  decide

/-- Counterexample to claim C3: a swapchain recreation with an unchanged
image count still replaces every acquire and present semaphore — no
semaphore identity survives. -/
theorem semaphores_not_preserved_on_recreation :
    (sampleRenderer.do_recreate_swapchain { width := 800, height := 600 }
        2).framebuffer_state.number_of_frames =
      sampleRenderer.framebuffer_state.number_of_frames
    ∧ (sampleRenderer.do_recreate_swapchain { width := 800, height := 600 }
        2).framebuffer_state.acquire_semaphores ≠
      sampleRenderer.framebuffer_state.acquire_semaphores
    ∧ (sampleRenderer.do_recreate_swapchain { width := 800, height := 600 }
        2).framebuffer_state.present_semaphores ≠
      sampleRenderer.framebuffer_state.present_semaphores
    ∧ (∀ x ∈ (sampleRenderer.do_recreate_swapchain
          { width := 800, height := 600 } 2).framebuffer_state.acquire_semaphores,
        x ∉ sampleRenderer.framebuffer_state.acquire_semaphores)
    ∧ (∀ x ∈ (sampleRenderer.do_recreate_swapchain
          { width := 800, height := 600 } 2).framebuffer_state.present_semaphores,
        x ∉ sampleRenderer.framebuffer_state.present_semaphores) := by
  decide

/-- Claim C3 as amended: every swapchain recreation — whatever the new
image count — rebuilds the swapchain, render pass, framebuffers, fences,
command pools and also both semaphore arrays with fresh identities, and
resets the round-robin slot to 0; no semaphore persists.  The hypotheses
say that the live objects were allocated before the current allocation
counter, which holds for every reachable state. -/
theorem recreation_replaces_all_resources (s : RendererState)
    (new_extent : Extent2D) (n : Nat)
    (hacq : ∀ x ∈ s.framebuffer_state.acquire_semaphores, x < s.alloc_counter)
    (hpres : ∀ x ∈ s.framebuffer_state.present_semaphores, x < s.alloc_counter)
    (hfence : ∀ x ∈ s.framebuffer_state.in_flight_fences, x < s.alloc_counter)
    (hpool : ∀ x ∈ s.framebuffer_state.command_pools, x < s.alloc_counter)
    (hfb : ∀ x ∈ s.framebuffer_state.framebuffers, x < s.alloc_counter)
    (hsw : s.swapchain < s.alloc_counter)
    (hrp : s.render_pass < s.alloc_counter) :
    (∀ x ∈ (s.do_recreate_swapchain new_extent n).framebuffer_state.acquire_semaphores,
        x ∉ s.framebuffer_state.acquire_semaphores ∧
        x ∉ s.framebuffer_state.present_semaphores)
    ∧ (∀ x ∈ (s.do_recreate_swapchain new_extent n).framebuffer_state.present_semaphores,
        x ∉ s.framebuffer_state.acquire_semaphores ∧
        x ∉ s.framebuffer_state.present_semaphores)
    ∧ (∀ x ∈ (s.do_recreate_swapchain new_extent n).framebuffer_state.in_flight_fences,
        x ∉ s.framebuffer_state.in_flight_fences)
    ∧ (∀ x ∈ (s.do_recreate_swapchain new_extent n).framebuffer_state.command_pools,
        x ∉ s.framebuffer_state.command_pools)
    ∧ (∀ x ∈ (s.do_recreate_swapchain new_extent n).framebuffer_state.framebuffers,
        x ∉ s.framebuffer_state.framebuffers)
    ∧ (s.do_recreate_swapchain new_extent n).swapchain ≠ s.swapchain
    ∧ (s.do_recreate_swapchain new_extent n).render_pass ≠ s.render_pass
    ∧ (s.do_recreate_swapchain new_extent n).framebuffer_state.number_of_frames = n
    ∧ (s.do_recreate_swapchain new_extent n).framebuffer_state.next_semaphore_index = 0
    ∧ (s.do_recreate_swapchain new_extent n).framebuffer_state.command_buffer_lists =
        List.replicate n []
    ∧ (s.do_recreate_swapchain new_extent n).viewport =
        create_viewport new_extent := by
  refine ⟨?_, ?_, ?_, ?_, ?_, ?_, ?_, rfl, rfl, rfl, rfl⟩
  · intro x hx
    simp only [RendererState.do_recreate_swapchain, FramebufferState.new,
      List.mem_range'_1] at hx
    exact ⟨fun hmem => absurd (hacq x hmem) (by omega),
           fun hmem => absurd (hpres x hmem) (by omega)⟩
  · intro x hx
    simp only [RendererState.do_recreate_swapchain, FramebufferState.new,
      List.mem_range'_1] at hx
    exact ⟨fun hmem => absurd (hacq x hmem) (by omega),
           fun hmem => absurd (hpres x hmem) (by omega)⟩
  · intro x hx
    simp only [RendererState.do_recreate_swapchain, FramebufferState.new,
      List.mem_range'_1] at hx
    exact fun hmem => absurd (hfence x hmem) (by omega)
  · intro x hx
    simp only [RendererState.do_recreate_swapchain, FramebufferState.new,
      List.mem_range'_1] at hx
    exact fun hmem => absurd (hpool x hmem) (by omega)
  · intro x hx
    simp only [RendererState.do_recreate_swapchain, FramebufferState.new,
      List.mem_range'_1] at hx
    exact fun hmem => absurd (hfb x hmem) (by omega)
  · simp only [RendererState.do_recreate_swapchain]
    omega
  · simp only [RendererState.do_recreate_swapchain]
    omega

/-- Witness for the amended C3 at a concrete renderer and recreation. -/
theorem recreation_replaces_all_resources_witness :
    (∀ x ∈ (sampleRenderer.do_recreate_swapchain { width := 640, height := 480 }
          2).framebuffer_state.acquire_semaphores,
        x ∉ sampleRenderer.framebuffer_state.acquire_semaphores ∧
        x ∉ sampleRenderer.framebuffer_state.present_semaphores)
    ∧ (∀ x ∈ (sampleRenderer.do_recreate_swapchain { width := 640, height := 480 }
          2).framebuffer_state.present_semaphores,
        x ∉ sampleRenderer.framebuffer_state.acquire_semaphores ∧
        x ∉ sampleRenderer.framebuffer_state.present_semaphores)
    ∧ (∀ x ∈ (sampleRenderer.do_recreate_swapchain { width := 640, height := 480 }
          2).framebuffer_state.in_flight_fences,
        x ∉ sampleRenderer.framebuffer_state.in_flight_fences)
    ∧ (∀ x ∈ (sampleRenderer.do_recreate_swapchain { width := 640, height := 480 }
          2).framebuffer_state.command_pools,
        x ∉ sampleRenderer.framebuffer_state.command_pools)
    ∧ (∀ x ∈ (sampleRenderer.do_recreate_swapchain { width := 640, height := 480 }
          2).framebuffer_state.framebuffers,
        x ∉ sampleRenderer.framebuffer_state.framebuffers)
    ∧ (sampleRenderer.do_recreate_swapchain { width := 640, height := 480 }
        2).swapchain ≠ sampleRenderer.swapchain
    ∧ (sampleRenderer.do_recreate_swapchain { width := 640, height := 480 }
        2).render_pass ≠ sampleRenderer.render_pass
    ∧ (sampleRenderer.do_recreate_swapchain { width := 640, height := 480 }
        2).framebuffer_state.number_of_frames = 2
    ∧ (sampleRenderer.do_recreate_swapchain { width := 640, height := 480 }
        2).framebuffer_state.next_semaphore_index = 0
    ∧ (sampleRenderer.do_recreate_swapchain { width := 640, height := 480 }
        2).framebuffer_state.command_buffer_lists = List.replicate 2 []
    ∧ (sampleRenderer.do_recreate_swapchain { width := 640, height := 480 }
        2).viewport = create_viewport { width := 640, height := 480 } :=
  recreation_replaces_all_resources sampleRenderer
    { width := 640, height := 480 } 2 (by decide) (by decide) (by decide)
    (by decide) (by decide) (by decide) (by decide)

/-! ### Helper lemmas about `draw_after_acquire` and `draw_clear_frame` -/

/-- `draw_after_acquire` never touches the swapchain, render pass,
viewport, semaphores, fences, pools or frame count, and never lowers the
allocation counter. -/
theorem daa_preserves (s : RendererState) (env : FrameEnv) (si idx : Nat) :
    (s.draw_after_acquire env si idx).state.swapchain = s.swapchain
    ∧ (s.draw_after_acquire env si idx).state.render_pass = s.render_pass
    ∧ (s.draw_after_acquire env si idx).state.swapchain_extent =
        s.swapchain_extent
    ∧ (s.draw_after_acquire env si idx).state.viewport = s.viewport
    ∧ (s.draw_after_acquire env si idx).state.alloc_counter ≥ s.alloc_counter
    ∧ (s.draw_after_acquire env si idx).state.framebuffer_state.number_of_frames =
        s.framebuffer_state.number_of_frames
    ∧ (s.draw_after_acquire env si idx).state.framebuffer_state.next_semaphore_index =
        s.framebuffer_state.next_semaphore_index
    ∧ (s.draw_after_acquire env si idx).state.framebuffer_state.command_buffer_lists.length =
        s.framebuffer_state.command_buffer_lists.length
    ∧ (s.draw_after_acquire env si idx).state.framebuffer_state.acquire_semaphores =
        s.framebuffer_state.acquire_semaphores
    ∧ (s.draw_after_acquire env si idx).state.framebuffer_state.present_semaphores =
        s.framebuffer_state.present_semaphores
    ∧ (s.draw_after_acquire env si idx).state.framebuffer_state.in_flight_fences =
        s.framebuffer_state.in_flight_fences
    ∧ (s.draw_after_acquire env si idx).state.framebuffer_state.command_pools =
        s.framebuffer_state.command_pools
    ∧ (s.draw_after_acquire env si idx).state.framebuffer_state.framebuffers =
        s.framebuffer_state.framebuffers := by
  unfold RendererState.draw_after_acquire
  by_cases hw : env.fence_wait_ok <;> by_cases hr : env.fence_reset_ok <;>
    by_cases hp : env.present_ok <;>
      rcases hbl : s.framebuffer_state.command_buffer_lists.getD idx []
        with _ | ⟨b, rest⟩ <;>
        simp [hw, hr, hp, hbl, List.length_set]

/-- A present failure after a successful acquire still yields `Ok` and
sets the recreation flag. -/
theorem daa_present_failure (s : RendererState) (env : FrameEnv)
    (si idx : Nat) (hw : env.fence_wait_ok = true)
    (hr : env.fence_reset_ok = true) (hp : env.present_ok = false) :
    (s.draw_after_acquire env si idx).result = Except.ok ()
    ∧ (s.draw_after_acquire env si idx).state.recreate_swapchain = true := by
  unfold RendererState.draw_after_acquire
  rcases hbl : s.framebuffer_state.command_buffer_lists.getD idx []
    with _ | ⟨b, rest⟩ <;> simp [hw, hr, hp, hbl]

/-- On the all-success path, `draw_after_acquire` pops (or, for an empty
list, allocates) exactly `command_buffer_for`, records, submits and
pushes it back, leaving that buffer as the sole head of the image's
list. -/
theorem daa_success_effect (s : RendererState) (env : FrameEnv)
    (si idx : Nat) (hw : env.fence_wait_ok = true)
    (hr : env.fence_reset_ok = true) (hp : env.present_ok = true) :
    (s.draw_after_acquire env si idx).state.framebuffer_state.command_buffer_lists =
      s.framebuffer_state.command_buffer_lists.set idx
        (s.command_buffer_for idx ::
          (s.framebuffer_state.command_buffer_lists.getD idx []).tail)
    ∧ (s.draw_after_acquire env si idx).state.recreate_swapchain =
        s.recreate_swapchain
    ∧ (s.draw_after_acquire env si idx).result = Except.ok ()
    ∧ (s.draw_after_acquire env si idx).trace =
        [FrameEvent.fenceWait idx, FrameEvent.fenceReset idx,
         FrameEvent.poolReset idx,
         (if (s.framebuffer_state.command_buffer_lists.getD idx []).isEmpty
          then FrameEvent.allocBuffer idx (s.command_buffer_for idx)
          else FrameEvent.popBuffer idx (s.command_buffer_for idx)),
         FrameEvent.recordBuffer (s.command_buffer_for idx),
         FrameEvent.submit idx (s.command_buffer_for idx) si,
         FrameEvent.pushBuffer idx (s.command_buffer_for idx),
         FrameEvent.present idx si] := by
  unfold RendererState.draw_after_acquire RendererState.command_buffer_for
  rcases hbl : s.framebuffer_state.command_buffer_lists.getD idx []
    with _ | ⟨b, rest⟩
  · rw [List.getD_eq_getElem?_getD] at hbl
    simp [hw, hr, hp, List.getD_eq_getElem?_getD, hbl]
  · have hlt : idx < s.framebuffer_state.command_buffer_lists.length := by
      by_contra hge
      rw [List.getD_eq_default _ _ (Nat.le_of_not_lt hge)] at hbl
      exact List.noConfusion hbl
    have hgd : (s.framebuffer_state.command_buffer_lists.set idx
        rest)[idx]?.getD [] = rest := by
      rw [List.getElem?_set_self (by simpa using hlt)]
      rfl
    rw [List.getD_eq_getElem?_getD] at hbl
    simp [hw, hr, hp, List.getD_eq_getElem?_getD, hbl, hgd, List.set_set]

/-- With a clear flag, step 1 of `draw_clear_frame` is the identity. -/
theorem rin_flag_false_eq (s₀ : RendererState) (env : FrameEnv)
    (hflag : s₀.recreate_swapchain = false) :
    s₀.recreated_if_needed env = s₀ := by
  simp [RendererState.recreated_if_needed, hflag]

/-- With the flag set, step 1 of `draw_clear_frame` rebuilds everything
and clears the flag. -/
theorem rin_flag_true_eq (s₀ : RendererState) (env : FrameEnv)
    (hflag : s₀.recreate_swapchain = true) :
    s₀.recreated_if_needed env =
      { s₀.do_recreate_swapchain env.recreate_extent env.recreate_image_count
        with recreate_swapchain := false } := by
  simp [RendererState.recreated_if_needed, hflag]

/-- Unfolding equation: a pending recreation whose device-idle wait or
rebuild fails yields the propagated error and leaves the state (flag
included) unchanged. -/
theorem dcf_err_eq (s₀ : RendererState) (env : FrameEnv)
    (hflag : s₀.recreate_swapchain = true) (hok : env.recreate_ok = false) :
    s₀.draw_clear_frame env =
      { result := Except.error (VortekError.RenderingError
          "Could not wait for device to become idle: "),
        state := s₀, trace := [] } := by
  simp [RendererState.draw_clear_frame, hflag, hok]

/-- Unfolding equation for a failed acquire: the slot advances, the flag
is set, and `Ok` is returned. -/
theorem dcf_none_eq (s₀ : RendererState) (env : FrameEnv)
    (hcond : s₀.recreate_swapchain = false ∨ env.recreate_ok = true)
    (hacq : env.acquire_result = none) :
    s₀.draw_clear_frame env =
      { result := Except.ok (),
        state := { s₀.pre_state env with recreate_swapchain := true },
        trace :=
          (if s₀.recreate_swapchain then [FrameEvent.recreateSwapchain]
           else []) ++
          [FrameEvent.advanceSlot
            (s₀.recreated_if_needed env).framebuffer_state.next_semaphore_index,
           FrameEvent.acquireImage
            (s₀.recreated_if_needed env).framebuffer_state.next_semaphore_index] } := by
  by_cases hflag : s₀.recreate_swapchain
  · have hok : env.recreate_ok = true := by
      rcases hcond with h | h
      · rw [hflag] at h; exact Bool.noConfusion h
      · exact h
    simp [RendererState.draw_clear_frame, RendererState.recreated_if_needed,
      RendererState.pre_state, hflag, hok, hacq,
      FramebufferState.advance_semaphore_index]
  · simp [RendererState.draw_clear_frame, RendererState.recreated_if_needed,
      RendererState.pre_state, hflag, hacq,
      FramebufferState.advance_semaphore_index]

/-- Unfolding equation for a successful acquire: the call is
`draw_after_acquire` on the pre-acquire state, with the recreation and
acquire events in front of its trace. -/
theorem dcf_some_eq (s₀ : RendererState) (env : FrameEnv) (idx : Nat)
    (hcond : s₀.recreate_swapchain = false ∨ env.recreate_ok = true)
    (hacq : env.acquire_result = some idx) :
    s₀.draw_clear_frame env =
      { result := ((s₀.pre_state env).draw_after_acquire env
            (s₀.recreated_if_needed env).framebuffer_state.next_semaphore_index
            idx).result,
        state := ((s₀.pre_state env).draw_after_acquire env
            (s₀.recreated_if_needed env).framebuffer_state.next_semaphore_index
            idx).state,
        trace :=
          (if s₀.recreate_swapchain then [FrameEvent.recreateSwapchain]
           else []) ++
          [FrameEvent.advanceSlot
            (s₀.recreated_if_needed env).framebuffer_state.next_semaphore_index,
           FrameEvent.acquireImage
            (s₀.recreated_if_needed env).framebuffer_state.next_semaphore_index]
          ++ ((s₀.pre_state env).draw_after_acquire env
            (s₀.recreated_if_needed env).framebuffer_state.next_semaphore_index
            idx).trace } := by
  by_cases hflag : s₀.recreate_swapchain
  · have hok : env.recreate_ok = true := by
      rcases hcond with h | h
      · rw [hflag] at h; exact Bool.noConfusion h
      · exact h
    simp [RendererState.draw_clear_frame, RendererState.recreated_if_needed,
      RendererState.pre_state, hflag, hok, hacq,
      FramebufferState.advance_semaphore_index]
  · simp [RendererState.draw_clear_frame, RendererState.recreated_if_needed,
      RendererState.pre_state, hflag, hacq,
      FramebufferState.advance_semaphore_index]

/-- The allocation counter never decreases across a frame. -/
theorem dcf_alloc_mono (s₀ : RendererState) (env : FrameEnv) :
    s₀.alloc_counter ≤ (s₀.draw_clear_frame env).state.alloc_counter := by
  have hrin : s₀.alloc_counter ≤ (s₀.recreated_if_needed env).alloc_counter := by
    cases hflag : s₀.recreate_swapchain <;>
      simp [RendererState.recreated_if_needed, hflag,
        RendererState.do_recreate_swapchain]
    omega
  cases hflag : s₀.recreate_swapchain <;> cases hok : env.recreate_ok <;>
    rcases hacq : env.acquire_result with _ | idx
  · rw [dcf_none_eq s₀ env (Or.inl hflag) hacq]
    exact hrin
  · rw [dcf_some_eq s₀ env idx (Or.inl hflag) hacq]
    exact Nat.le_trans hrin
      ((daa_preserves (s₀.pre_state env) env
        (s₀.recreated_if_needed env).framebuffer_state.next_semaphore_index
        idx).2.2.2.2.1)
  · rw [dcf_none_eq s₀ env (Or.inl hflag) hacq]
    exact hrin
  · rw [dcf_some_eq s₀ env idx (Or.inl hflag) hacq]
    exact Nat.le_trans hrin
      ((daa_preserves (s₀.pre_state env) env
        (s₀.recreated_if_needed env).framebuffer_state.next_semaphore_index
        idx).2.2.2.2.1)
  · rw [dcf_err_eq s₀ env hflag hok]
  · rw [dcf_err_eq s₀ env hflag hok]
  · rw [dcf_none_eq s₀ env (Or.inr hok) hacq]
    exact hrin
  · rw [dcf_some_eq s₀ env idx (Or.inr hok) hacq]
    exact Nat.le_trans hrin
      ((daa_preserves (s₀.pre_state env) env
        (s₀.recreated_if_needed env).framebuffer_state.next_semaphore_index
        idx).2.2.2.2.1)

/-- A frame keeps the live swapchain and render-pass identities below the
allocation counter. -/
theorem dcf_id_invariant (s₀ : RendererState) (env : FrameEnv)
    (hsw : s₀.swapchain < s₀.alloc_counter)
    (hrp : s₀.render_pass < s₀.alloc_counter) :
    (s₀.draw_clear_frame env).state.swapchain <
        (s₀.draw_clear_frame env).state.alloc_counter
    ∧ (s₀.draw_clear_frame env).state.render_pass <
        (s₀.draw_clear_frame env).state.alloc_counter := by
  have hrin₁ : (s₀.recreated_if_needed env).swapchain <
      (s₀.recreated_if_needed env).alloc_counter := by
    cases hflag : s₀.recreate_swapchain <;>
      simp [RendererState.recreated_if_needed, hflag,
        RendererState.do_recreate_swapchain] <;> omega
  have hrin₂ : (s₀.recreated_if_needed env).render_pass <
      (s₀.recreated_if_needed env).alloc_counter := by
    cases hflag : s₀.recreate_swapchain <;>
      simp [RendererState.recreated_if_needed, hflag,
        RendererState.do_recreate_swapchain] <;> omega
  cases hflag : s₀.recreate_swapchain <;> cases hok : env.recreate_ok <;>
    rcases hacq : env.acquire_result with _ | idx
  · rw [dcf_none_eq s₀ env (Or.inl hflag) hacq]
    exact ⟨hrin₁, hrin₂⟩
  · rw [dcf_some_eq s₀ env idx (Or.inl hflag) hacq]
    have hd := daa_preserves (s₀.pre_state env) env
      (s₀.recreated_if_needed env).framebuffer_state.next_semaphore_index idx
    refine ⟨?_, ?_⟩
    · rw [hd.1]
      exact Nat.lt_of_lt_of_le hrin₁ hd.2.2.2.2.1
    · rw [hd.2.1]
      exact Nat.lt_of_lt_of_le hrin₂ hd.2.2.2.2.1
  · rw [dcf_none_eq s₀ env (Or.inl hflag) hacq]
    exact ⟨hrin₁, hrin₂⟩
  · rw [dcf_some_eq s₀ env idx (Or.inl hflag) hacq]
    have hd := daa_preserves (s₀.pre_state env) env
      (s₀.recreated_if_needed env).framebuffer_state.next_semaphore_index idx
    refine ⟨?_, ?_⟩
    · rw [hd.1]
      exact Nat.lt_of_lt_of_le hrin₁ hd.2.2.2.2.1
    · rw [hd.2.1]
      exact Nat.lt_of_lt_of_le hrin₂ hd.2.2.2.2.1
  · rw [dcf_err_eq s₀ env hflag hok]
    exact ⟨hsw, hrp⟩
  · rw [dcf_err_eq s₀ env hflag hok]
    exact ⟨hsw, hrp⟩
  · rw [dcf_none_eq s₀ env (Or.inr hok) hacq]
    exact ⟨hrin₁, hrin₂⟩
  · rw [dcf_some_eq s₀ env idx (Or.inr hok) hacq]
    have hd := daa_preserves (s₀.pre_state env) env
      (s₀.recreated_if_needed env).framebuffer_state.next_semaphore_index idx
    refine ⟨?_, ?_⟩
    · rw [hd.1]
      exact Nat.lt_of_lt_of_le hrin₁ hd.2.2.2.2.1
    · rw [hd.2.1]
      exact Nat.lt_of_lt_of_le hrin₂ hd.2.2.2.2.1

/-- An acquire or present failure yields `Ok` with the recreation flag
set. -/
theorem dcf_failure_flags (s₀ : RendererState) (env : FrameEnv)
    (hok : env.recreate_ok = true) (hw : env.fence_wait_ok = true)
    (hr : env.fence_reset_ok = true)
    (hfail : env.acquire_result = none ∨ env.present_ok = false) :
    (s₀.draw_clear_frame env).result = Except.ok ()
    ∧ (s₀.draw_clear_frame env).state.recreate_swapchain = true := by
  rcases hacq : env.acquire_result with _ | idx
  · rw [dcf_none_eq s₀ env (Or.inr hok) hacq]
    exact ⟨rfl, rfl⟩
  · have hp : env.present_ok = false := by
      rcases hfail with h | h
      · rw [hacq] at h; exact Option.noConfusion h
      · exact h
    rw [dcf_some_eq s₀ env idx (Or.inr hok) hacq]
    exact ⟨(daa_present_failure _ env _ idx hw hr hp).1,
           (daa_present_failure _ env _ idx hw hr hp).2⟩

/-- A call entered with the flag set immediately recreates: the trace
opens with the recreation event followed by the slot-0 advance and the
acquire attempt, and the resulting state carries the freshly built
swapchain, render pass, extent, viewport and frame count. -/
theorem dcf_recreation_first (s₀ : RendererState) (env : FrameEnv)
    (hflag : s₀.recreate_swapchain = true) (hok : env.recreate_ok = true) :
    (∃ rest, (s₀.draw_clear_frame env).trace =
        FrameEvent.recreateSwapchain :: FrameEvent.advanceSlot 0 ::
          FrameEvent.acquireImage 0 :: rest)
    ∧ (s₀.draw_clear_frame env).state.swapchain = s₀.alloc_counter
    ∧ (s₀.draw_clear_frame env).state.render_pass = s₀.alloc_counter + 1
    ∧ (s₀.draw_clear_frame env).state.swapchain_extent = env.recreate_extent
    ∧ (s₀.draw_clear_frame env).state.viewport =
        create_viewport env.recreate_extent
    ∧ (s₀.draw_clear_frame env).state.framebuffer_state.number_of_frames =
        env.recreate_image_count := by
  have hnext : (s₀.recreated_if_needed env).framebuffer_state.next_semaphore_index = 0 := by
    rw [rin_flag_true_eq s₀ env hflag]
    rfl
  rcases hacq : env.acquire_result with _ | idx
  · rw [dcf_none_eq s₀ env (Or.inr hok) hacq]
    refine ⟨⟨[], by simp [hflag, hnext]⟩, ?_, ?_, ?_, ?_, ?_⟩ <;>
      simp [RendererState.pre_state, rin_flag_true_eq s₀ env hflag,
        RendererState.do_recreate_swapchain, FramebufferState.new,
        FramebufferState.advance_semaphore_index]
  · rw [dcf_some_eq s₀ env idx (Or.inr hok) hacq]
    have hd := daa_preserves (s₀.pre_state env) env
      (s₀.recreated_if_needed env).framebuffer_state.next_semaphore_index idx
    refine ⟨⟨((s₀.pre_state env).draw_after_acquire env
        (s₀.recreated_if_needed env).framebuffer_state.next_semaphore_index
        idx).trace, by simp [hflag, hnext]⟩, ?_, ?_, ?_, ?_, ?_⟩
    · rw [hd.1]
      simp [RendererState.pre_state, rin_flag_true_eq s₀ env hflag,
        RendererState.do_recreate_swapchain]
    · rw [hd.2.1]
      simp [RendererState.pre_state, rin_flag_true_eq s₀ env hflag,
        RendererState.do_recreate_swapchain]
    · rw [hd.2.2.1]
      simp [RendererState.pre_state, rin_flag_true_eq s₀ env hflag,
        RendererState.do_recreate_swapchain]
    · rw [hd.2.2.2.1]
      simp [RendererState.pre_state, rin_flag_true_eq s₀ env hflag,
        RendererState.do_recreate_swapchain]
    · rw [hd.2.2.2.2.2.1]
      simp [RendererState.pre_state, rin_flag_true_eq s₀ env hflag,
        RendererState.do_recreate_swapchain, FramebufferState.new,
        FramebufferState.advance_semaphore_index]

/-- On a flag-clear all-success frame acquiring image `idx`, the frame
pops (or allocates on first use) `command_buffer_for idx`, pushes exactly
that buffer back as the image's list head, touches no other image's
list, and keeps the flag clear. -/
theorem dcf_success_self (s : RendererState) (env : FrameEnv) (idx : Nat)
    (hflag : s.recreate_swapchain = false)
    (hw : env.fence_wait_ok = true) (hr : env.fence_reset_ok = true)
    (hp : env.present_ok = true) (hacq : env.acquire_result = some idx)
    (hlen : idx < s.framebuffer_state.command_buffer_lists.length) :
    (s.draw_clear_frame env).state.framebuffer_state.command_buffer_lists.getD idx [] =
      s.command_buffer_for idx ::
        (s.framebuffer_state.command_buffer_lists.getD idx []).tail
    ∧ (s.draw_clear_frame env).state.recreate_swapchain = false
    ∧ (s.draw_clear_frame env).state.framebuffer_state.command_buffer_lists.length =
        s.framebuffer_state.command_buffer_lists.length
    ∧ FrameEvent.pushBuffer idx (s.command_buffer_for idx) ∈
        (s.draw_clear_frame env).trace
    ∧ (∀ i b, FrameEvent.pushBuffer i b ∈ (s.draw_clear_frame env).trace →
        i = idx ∧ b = s.command_buffer_for idx)
    ∧ (s.framebuffer_state.command_buffer_lists.getD idx [] ≠ [] →
        FrameEvent.popBuffer idx (s.command_buffer_for idx) ∈
          (s.draw_clear_frame env).trace)
    ∧ (∀ i b, FrameEvent.allocBuffer i b ∈ (s.draw_clear_frame env).trace →
        s.framebuffer_state.command_buffer_lists.getD idx [] = []) := by
  rw [dcf_some_eq s env idx (Or.inl hflag) hacq]
  have hrin := rin_flag_false_eq s env hflag
  have hpre_lists : (s.pre_state env).framebuffer_state.command_buffer_lists =
      s.framebuffer_state.command_buffer_lists := by
    simp [RendererState.pre_state, hrin, FramebufferState.advance_semaphore_index]
  have hpre_alloc : (s.pre_state env).alloc_counter = s.alloc_counter := by
    simp [RendererState.pre_state, hrin]
  have hpre_flag : (s.pre_state env).recreate_swapchain = false := by
    simp [RendererState.pre_state, hrin, hflag]
  have hpre_cbf : (s.pre_state env).command_buffer_for idx =
      s.command_buffer_for idx := by
    unfold RendererState.command_buffer_for
    rw [hpre_lists, hpre_alloc]
  have hd := daa_success_effect (s.pre_state env) env
    (s.recreated_if_needed env).framebuffer_state.next_semaphore_index idx
    hw hr hp
  refine ⟨?_, ?_, ?_, ?_, ?_, ?_, ?_⟩
  · rw [hd.1, hpre_lists, hpre_cbf, List.getD_eq_getElem?_getD,
      List.getElem?_set_self (by simpa using hlen)]
    rfl
  · rw [hd.2.1, hpre_flag]
  · rw [hd.1, hpre_lists, List.length_set]
  · rw [hd.2.2.2, hpre_cbf]
    simp
  · rw [hd.2.2.2, hpre_cbf, hpre_lists]
    rcases hbl : s.framebuffer_state.command_buffer_lists.getD idx []
      with _ | ⟨c, t⟩ <;> intro i b hmem <;> simp [hbl] at hmem <;> exact hmem
  · rw [hd.2.2.2, hpre_cbf, hpre_lists]
    intro hne
    rcases hbl : s.framebuffer_state.command_buffer_lists.getD idx []
      with _ | ⟨c, t⟩
    · exact absurd hbl hne
    · simp [hbl]
  · rw [hd.2.2.2, hpre_cbf, hpre_lists]
    rcases hbl : s.framebuffer_state.command_buffer_lists.getD idx []
      with _ | ⟨c, t⟩ <;> intro i b hmem
    · rfl
    · simp [hbl] at hmem

/-- A flag-clear all-success frame acquiring image `j` leaves every other
image's reusable command-buffer list untouched and the flag clear. -/
theorem dcf_success_other (s : RendererState) (env : FrameEnv) (j : Nat)
    (hflag : s.recreate_swapchain = false)
    (hw : env.fence_wait_ok = true) (hr : env.fence_reset_ok = true)
    (hp : env.present_ok = true) (hacq : env.acquire_result = some j) :
    (∀ i, i ≠ j →
      (s.draw_clear_frame env).state.framebuffer_state.command_buffer_lists.getD i [] =
        s.framebuffer_state.command_buffer_lists.getD i [])
    ∧ (s.draw_clear_frame env).state.recreate_swapchain = false
    ∧ (s.draw_clear_frame env).state.framebuffer_state.command_buffer_lists.length =
        s.framebuffer_state.command_buffer_lists.length := by
  rw [dcf_some_eq s env j (Or.inl hflag) hacq]
  have hrin := rin_flag_false_eq s env hflag
  have hpre_lists : (s.pre_state env).framebuffer_state.command_buffer_lists =
      s.framebuffer_state.command_buffer_lists := by
    simp [RendererState.pre_state, hrin, FramebufferState.advance_semaphore_index]
  have hpre_flag : (s.pre_state env).recreate_swapchain = false := by
    simp [RendererState.pre_state, hrin, hflag]
  have hd := daa_success_effect (s.pre_state env) env
    (s.recreated_if_needed env).framebuffer_state.next_semaphore_index j
    hw hr hp
  refine ⟨?_, ?_, ?_⟩
  · intro i hne
    rw [hd.1, hpre_lists, List.getD_eq_getElem?_getD,
      List.getElem?_set_ne (Ne.symm hne), List.getD_eq_getElem?_getD]
  · rw [hd.2.1, hpre_flag]
  · rw [hd.1, hpre_lists, List.length_set]

/-- Running any number of flag-clear all-success frames that never
acquire image `i` leaves image `i`'s reusable list, the list count and
the clear flag intact. -/
theorem runFrames_avoiding (i : Nat) (envs : List FrameEnv) :
    ∀ s : RendererState, s.recreate_swapchain = false →
    (∀ e ∈ envs, successfulEnv e ∧
      ∃ j, e.acquire_result = some j ∧ j ≠ i) →
    (s.runFrames envs).recreate_swapchain = false
    ∧ (s.runFrames envs).framebuffer_state.command_buffer_lists.getD i [] =
        s.framebuffer_state.command_buffer_lists.getD i []
    ∧ (s.runFrames envs).framebuffer_state.command_buffer_lists.length =
        s.framebuffer_state.command_buffer_lists.length := by
  induction envs with
  | nil =>
    intro s hs _
    exact ⟨hs, rfl, rfl⟩
  | cons e rest ih =>
    intro s hs hall
    obtain ⟨⟨hok, hw, hr, hp⟩, j, hacq, hne⟩ := hall e (by simp)
    have hstep := dcf_success_other s e j hs hw hr hp hacq
    have hrest := ih (s.draw_clear_frame e).state hstep.2.1
      (fun x hx => hall x (by simp [hx]))
    simp only [RendererState.runFrames]
    exact ⟨hrest.1, (hrest.2.1).trans (hstep.1 i (Ne.symm hne)),
           (hrest.2.2).trans hstep.2.2⟩

/-- Claim C10: a `draw_clear_frame` call whose image acquisition fails
returns `Ok` before touching any per-image resource: no fence wait or
reset, no pool reset, no command-buffer pop, record, submit or push
appears in its trace, and the only state changes are the round-robin
slot advance (performed on every call before the acquire) and the
recreation flag being set. -/
theorem draw_acquire_failure_minimal_effect (s : RendererState)
    (env : FrameEnv) (hflag : s.recreate_swapchain = false)
    (hacq : env.acquire_result = none) :
    s.draw_clear_frame env =
      { result := Except.ok (),
        state :=
          { s with
              recreate_swapchain := true,
              framebuffer_state := (s.framebuffer_state.advance_semaphore_index).2 },
        trace :=
          [FrameEvent.advanceSlot s.framebuffer_state.next_semaphore_index,
           FrameEvent.acquireImage s.framebuffer_state.next_semaphore_index] }
    ∧ (∀ e ∈ (s.draw_clear_frame env).trace,
        FrameEvent.touchesImageResources e = false)
    ∧ (s.draw_clear_frame env).state.framebuffer_state.command_buffer_lists =
        s.framebuffer_state.command_buffer_lists
    ∧ (s.draw_clear_frame env).state.framebuffer_state.in_flight_fences =
        s.framebuffer_state.in_flight_fences
    ∧ (s.draw_clear_frame env).state.framebuffer_state.command_pools =
        s.framebuffer_state.command_pools
    ∧ (s.draw_clear_frame env).state.framebuffer_state.next_semaphore_index =
        (s.framebuffer_state.next_semaphore_index + 1) %
          s.framebuffer_state.number_of_frames
    ∧ (s.draw_clear_frame env).state.recreate_swapchain = true
    ∧ (s.draw_clear_frame env).result = Except.ok () := by
  have heq := dcf_none_eq s env (Or.inl hflag) hacq
  have hrin := rin_flag_false_eq s env hflag
  rw [heq]
  refine ⟨?_, ?_, ?_, ?_, ?_, ?_, rfl, rfl⟩
  · simp [RendererState.pre_state, hrin, hflag]
  · intro e he
    simp [hflag] at he
    rcases he with rfl | rfl <;> rfl
  · simp [RendererState.pre_state, hrin, FramebufferState.advance_semaphore_index]
  · simp [RendererState.pre_state, hrin, FramebufferState.advance_semaphore_index]
  · simp [RendererState.pre_state, hrin, FramebufferState.advance_semaphore_index]
  · simp [RendererState.pre_state, hrin, FramebufferState.advance_semaphore_index]

/-- Witness for C10 at a concrete renderer and a failing acquire. -/
theorem draw_acquire_failure_minimal_effect_witness :
    sampleRenderer.draw_clear_frame envAcquireFail =
      { result := Except.ok (),
        state :=
          { sampleRenderer with
              recreate_swapchain := true,
              framebuffer_state := (sampleRenderer.framebuffer_state.advance_semaphore_index).2 },
        trace :=
          [FrameEvent.advanceSlot sampleRenderer.framebuffer_state.next_semaphore_index,
           FrameEvent.acquireImage sampleRenderer.framebuffer_state.next_semaphore_index] } :=
  (draw_acquire_failure_minimal_effect sampleRenderer envAcquireFail
    rfl rfl).1

/-- Claim C1: an acquire or present failure inside `draw_clear_frame`
returns `Ok` and sets the recreation flag; the very next call consumes
the flag at its start — its trace opens with the recreation event before
the slot advance and the acquire attempt — rebuilding the swapchain,
render pass, framebuffer resources and viewport (observably new
identities, fresh extent-derived viewport, image count renegotiated)
before the new acquire. -/
theorem draw_failure_deferred_recreation (s : RendererState)
    (env env₂ : FrameEnv)
    (hok : env.recreate_ok = true) (hw : env.fence_wait_ok = true)
    (hr : env.fence_reset_ok = true)
    (hfail : env.acquire_result = none ∨ env.present_ok = false)
    (hok₂ : env₂.recreate_ok = true)
    (hsw : s.swapchain < s.alloc_counter)
    (hrp : s.render_pass < s.alloc_counter) :
    (s.draw_clear_frame env).result = Except.ok ()
    ∧ (s.draw_clear_frame env).state.recreate_swapchain = true
    ∧ (∃ rest, ((s.draw_clear_frame env).state.draw_clear_frame env₂).trace =
        FrameEvent.recreateSwapchain :: FrameEvent.advanceSlot 0 ::
          FrameEvent.acquireImage 0 :: rest)
    ∧ ((s.draw_clear_frame env).state.draw_clear_frame env₂).state.swapchain ≠
        (s.draw_clear_frame env).state.swapchain
    ∧ ((s.draw_clear_frame env).state.draw_clear_frame env₂).state.render_pass ≠
        (s.draw_clear_frame env).state.render_pass
    ∧ ((s.draw_clear_frame env).state.draw_clear_frame
        env₂).state.swapchain_extent = env₂.recreate_extent
    ∧ ((s.draw_clear_frame env).state.draw_clear_frame env₂).state.viewport =
        create_viewport env₂.recreate_extent
    ∧ ((s.draw_clear_frame env).state.draw_clear_frame
        env₂).state.framebuffer_state.number_of_frames =
        env₂.recreate_image_count := by
  obtain ⟨hres, hflag₁⟩ := dcf_failure_flags s env hok hw hr hfail
  obtain ⟨hinv₁, hinv₂⟩ := dcf_id_invariant s env hsw hrp
  have hnext := dcf_recreation_first (s.draw_clear_frame env).state env₂
    hflag₁ hok₂
  refine ⟨hres, hflag₁, hnext.1, ?_, ?_, hnext.2.2.2.1, hnext.2.2.2.2.1,
    hnext.2.2.2.2.2⟩
  · rw [hnext.2.1]
    omega
  · rw [hnext.2.2.1]
    omega

/-- Witness for C1: a present failure at a concrete renderer, followed by
an all-success call. -/
theorem draw_failure_deferred_recreation_witness :
    (sampleRenderer.draw_clear_frame envPresentFail).result = Except.ok ()
    ∧ (sampleRenderer.draw_clear_frame
        envPresentFail).state.recreate_swapchain = true
    ∧ (∃ rest, ((sampleRenderer.draw_clear_frame
          envPresentFail).state.draw_clear_frame (envSuccess 0)).trace =
        FrameEvent.recreateSwapchain :: FrameEvent.advanceSlot 0 ::
          FrameEvent.acquireImage 0 :: rest)
    ∧ ((sampleRenderer.draw_clear_frame envPresentFail).state.draw_clear_frame
        (envSuccess 0)).state.swapchain ≠
        (sampleRenderer.draw_clear_frame envPresentFail).state.swapchain
    ∧ ((sampleRenderer.draw_clear_frame envPresentFail).state.draw_clear_frame
        (envSuccess 0)).state.render_pass ≠
        (sampleRenderer.draw_clear_frame envPresentFail).state.render_pass
    ∧ ((sampleRenderer.draw_clear_frame envPresentFail).state.draw_clear_frame
        (envSuccess 0)).state.swapchain_extent = (envSuccess 0).recreate_extent
    ∧ ((sampleRenderer.draw_clear_frame envPresentFail).state.draw_clear_frame
        (envSuccess 0)).state.viewport =
        create_viewport (envSuccess 0).recreate_extent
    ∧ ((sampleRenderer.draw_clear_frame envPresentFail).state.draw_clear_frame
        (envSuccess 0)).state.framebuffer_state.number_of_frames =
        (envSuccess 0).recreate_image_count :=
  draw_failure_deferred_recreation sampleRenderer envPresentFail
    (envSuccess 0) rfl rfl rfl (Or.inr rfl) rfl (by decide) (by decide)

/-- Claim C8: over consecutive successful frames with no recreation, the
command buffer pushed back for image `i` in one frame is exactly the one
popped when image `i` next recurs (any interleaving of other images in
between, in particular the `imageCount`-periodic one), and no new buffer
is allocated for it. -/
theorem command_buffer_reuse (s : RendererState) (env₁ : FrameEnv)
    (envs : List FrameEnv) (env₂ : FrameEnv) (i b : Nat)
    (hflag : s.recreate_swapchain = false)
    (hlen : i < s.framebuffer_state.command_buffer_lists.length)
    (h₁ : successfulEnv env₁) (ha₁ : env₁.acquire_result = some i)
    (hmid : ∀ e ∈ envs, successfulEnv e ∧
      ∃ j, e.acquire_result = some j ∧ j ≠ i)
    (h₂ : successfulEnv env₂) (ha₂ : env₂.acquire_result = some i)
    (hpush : FrameEvent.pushBuffer i b ∈ (s.draw_clear_frame env₁).trace) :
    FrameEvent.popBuffer i b ∈
      (((s.draw_clear_frame env₁).state.runFrames envs).draw_clear_frame
        env₂).trace
    ∧ FrameEvent.pushBuffer i b ∈
      (((s.draw_clear_frame env₁).state.runFrames envs).draw_clear_frame
        env₂).trace
    ∧ ∀ c, FrameEvent.allocBuffer i c ∉
      (((s.draw_clear_frame env₁).state.runFrames envs).draw_clear_frame
        env₂).trace := by
  obtain ⟨hok₁, hw₁, hr₁, hp₁⟩ := h₁
  obtain ⟨hok₂, hw₂, hr₂, hp₂⟩ := h₂
  have hf₁ := dcf_success_self s env₁ i hflag hw₁ hr₁ hp₁ ha₁ hlen
  have hb : b = s.command_buffer_for i := (hf₁.2.2.2.2.1 i b hpush).2
  have hrun := runFrames_avoiding i envs (s.draw_clear_frame env₁).state
    hf₁.2.1 hmid
  have hlist : ((s.draw_clear_frame env₁).state.runFrames
      envs).framebuffer_state.command_buffer_lists.getD i [] =
      s.command_buffer_for i ::
        (s.framebuffer_state.command_buffer_lists.getD i []).tail := by
    rw [hrun.2.1, hf₁.1]
  have hlen₂ : i < ((s.draw_clear_frame env₁).state.runFrames
      envs).framebuffer_state.command_buffer_lists.length := by
    rw [hrun.2.2, hf₁.2.2.1]
    exact hlen
  have hf₂ := dcf_success_self ((s.draw_clear_frame env₁).state.runFrames envs)
    env₂ i hrun.1 hw₂ hr₂ hp₂ ha₂ hlen₂
  have hcbf₂ : ((s.draw_clear_frame env₁).state.runFrames
      envs).command_buffer_for i = s.command_buffer_for i := by
    unfold RendererState.command_buffer_for
    rw [hlist]
    rfl
  refine ⟨?_, ?_, ?_⟩
  · rw [hb, ← hcbf₂]
    exact hf₂.2.2.2.2.2.1 (by
      rw [hlist]
      exact List.cons_ne_nil _ _)
  · rw [hb, ← hcbf₂]
    exact hf₂.2.2.2.1
  · intro c hc
    have hnil := hf₂.2.2.2.2.2.2 i c hc
    rw [hlist] at hnil
    exact List.noConfusion hnil

/-- Witness for C8: at a concrete two-image renderer, the buffer (id 14)
allocated and pushed for image 0 in the first frame is popped again for
image 0 two frames later, with a frame on image 1 in between. -/
theorem command_buffer_reuse_witness :
    FrameEvent.popBuffer 0 14 ∈
      (((sampleRenderer.draw_clear_frame (envSuccess 0)).state.runFrames
        [envSuccess 1]).draw_clear_frame (envSuccess 0)).trace
    ∧ FrameEvent.pushBuffer 0 14 ∈
      (((sampleRenderer.draw_clear_frame (envSuccess 0)).state.runFrames
        [envSuccess 1]).draw_clear_frame (envSuccess 0)).trace
    ∧ ∀ c, FrameEvent.allocBuffer 0 c ∉
      (((sampleRenderer.draw_clear_frame (envSuccess 0)).state.runFrames
        [envSuccess 1]).draw_clear_frame (envSuccess 0)).trace :=
  command_buffer_reuse sampleRenderer (envSuccess 0) [envSuccess 1]
    (envSuccess 0) 0 14 rfl (by decide) ⟨rfl, rfl, rfl, rfl⟩ rfl
    (fun e he => by
      rw [List.mem_singleton] at he
      subst he
      exact ⟨⟨rfl, rfl, rfl, rfl⟩, 1, rfl, by decide⟩)
    ⟨rfl, rfl, rfl, rfl⟩ rfl (by decide)

end Vortek
